import Mathlib

/-!
Shallow embedding of the dependency-discovery engine of
`pkg/resourceinterpreter/defaultinterpreter/dependencies.go` (karmada).

Go maps of labels are modelled as association lists `List (String × String)`
(Go map keys are unique; all properties below are stated through `lookup`,
which only consults the first binding of a key, matching Go map semantics).
`sets.String` (an unordered string set) is modelled as a duplicate-free
`List String` built by `sinsert`; the unspecified iteration order of a Go
map is modelled explicitly where a claim depends on it
(`extractWithIterationOrder`). Go `error` values are modelled as `String`,
fallible calls as `Except String α`. The namespace-scoped `client.Client`
Service-list read is modelled as a function from a namespace to the
read's outcome.
-/

namespace Karmada

/-- A label map / selector: association list from label key to value
(from a Go `map[string]string`). -/
abbrev LabelMap := List (String × String)

/-- Embeds `SelectorFromSet(sel).Matches(Set(podLabels))` from
`k8s.io/apimachinery/pkg/labels`.
`SelectorFromSet` turns each `(key, value)` pair of the set into an equality
requirement `key = value`; `Matches` holds when every requirement is satisfied
by the label map, i.e. each selector key is present with an equal value. -/
def selectorMatches (sel : LabelMap) (podLabels : LabelMap) : Bool :=
  sel.all fun kv => podLabels.lookup kv.1 == some kv.2

/-- Read-only view of a `corev1.Service`: name, type and optional selector
(the fields `dependencies.go` consults). `Spec_Type` is the string behind
the Go `corev1.ServiceType` string type. -/
structure Service where
  Name : String
  Spec_Type : String
  Spec_Selector : Option LabelMap
deriving DecidableEq, Repr

/-- The value of `corev1.ServiceTypeLoadBalancer`. -/
def ServiceTypeLoadBalancer : String := "LoadBalancer"

/-- Embeds `sets.String.Insert` restricted to one element: adds `x` when absent
(a Go set insert; representation keeps first-insertion order). -/
def sinsert (s : List String) (x : String) : List String :=
  if x ∈ s then s else s ++ [x]

/-- Insert every element of `xs` into the set `s`. -/
def insertAll (s : List String) (xs : List String) : List String :=
  xs.foldl sinsert s

/-- One iteration of the `getDependentServiceNames` loop: skip a
LoadBalancer Service; skip a Service with a nil selector (a nil selector
matches nothing, not everything); insert the Service's name when its
selector matches the pod labels. -/
def serviceStep (podLabels : LabelMap) (acc : List String) (service : Service) :
    List String :=
  if service.Spec_Type == ServiceTypeLoadBalancer then acc
  else
    match service.Spec_Selector with
    | none => acc
    | some sel =>
      if selectorMatches sel podLabels then sinsert acc service.Name else acc

/-- Embeds `getDependentServiceNames(podLabels, serviceList)`: fold the loop body
`serviceStep` over the Service list, starting from the empty set. -/
def getDependentServiceNames (podLabels : LabelMap) (serviceList : List Service) :
    List String :=
  serviceList.foldl (serviceStep podLabels) []

/-- A container of a pod template, reduced to the ConfigMap / Secret
reference sites the scanner examines: bulk `envFrom` imports naming a
ConfigMap or Secret, and per-variable `valueFrom` key references. -/
structure Container where
  envFromConfigMaps : List String
  envFromSecrets : List String
  envConfigMapKeyRefs : List String
  envSecretKeyRefs : List String
deriving DecidableEq, Repr

/-- A pod volume, reduced to its ConfigMap / Secret sources: a direct
ConfigMap or Secret volume source, and the ConfigMap / Secret sources
aggregated by a projected volume. -/
structure Volume where
  configMap : Option String
  secret : Option String
  projectedConfigMaps : List String
  projectedSecrets : List String
deriving DecidableEq, Repr

/-- A `corev1.Pod`, reduced to the fields the engine consults: namespace,
labels, containers (regular and init), volumes and image-pull secrets. -/
structure Pod where
  Namespace : String
  Labels : LabelMap
  containers : List Container
  initContainers : List Container
  volumes : List Volume
  imagePullSecrets : List String
deriving DecidableEq, Repr

/-- The ConfigMap names referenced by one container. -/
def containerConfigMapRefs (c : Container) : List String :=
  c.envFromConfigMaps ++ c.envConfigMapKeyRefs

/-- The Secret names referenced by one container. -/
def containerSecretRefs (c : Container) : List String :=
  c.envFromSecrets ++ c.envSecretKeyRefs

/-- The ConfigMap names referenced by one volume. -/
def volumeConfigMapRefs (v : Volume) : List String :=
  v.configMap.toList ++ v.projectedConfigMaps

/-- The Secret names referenced by one volume. -/
def volumeSecretRefs (v : Volume) : List String :=
  v.secret.toList ++ v.projectedSecrets

/-- Modelled from the spec: `getConfigMapNames` (helper code outside the
provided sources). Accumulates into a set every ConfigMap name referenced
by the pod's containers and init containers (bulk env imports, per-variable
key references) and by its volumes (direct ConfigMap sources and projected
sources). -/
def getConfigMapNames (podObj : Pod) : List String :=
  let fromContainers :=
    (podObj.containers ++ podObj.initContainers).foldl
      (fun acc c => insertAll acc (containerConfigMapRefs c)) []
  podObj.volumes.foldl (fun acc v => insertAll acc (volumeConfigMapRefs v))
    fromContainers

/-- Modelled from the spec: `getSecretNames` (helper code outside the
provided sources). Accumulates into a set every Secret name referenced by
the pod's containers and init containers, by its volumes (direct Secret
sources and projected sources), and by its pod-level image-pull secrets. -/
def getSecretNames (podObj : Pod) : List String :=
  let fromContainers :=
    (podObj.containers ++ podObj.initContainers).foldl
      (fun acc c => insertAll acc (containerSecretRefs c)) []
  let withVolumes :=
    podObj.volumes.foldl (fun acc v => insertAll acc (volumeSecretRefs v))
      fromContainers
  insertAll withVolumes podObj.imagePullSecrets

/-- Embeds `configv1alpha1.DependentObjectReference`. -/
structure DependentObjectReference where
  APIVersion : String
  Kind : String
  Namespace : String
  Name : String
deriving DecidableEq, Repr

/-- The namespace-scoped `client.Client` Service-list read:
`cl.List(ctx, serviceList, ListOptions{Namespace: ns})` is modelled as a
function from the namespace to either an error or the listed Services. -/
abbrev Client := String → Except String (List Service)

/-- Embeds `getServiceDependencies(cl, podObj)`: list the Services in the pod's
namespace (propagating a failed read unmodified), then emit one
`DependentObjectReference` with apiVersion `v1` and kind `Service` per
dependent Service name. -/
def getServiceDependencies (cl : Client) (podObj : Pod) :
    Except String (List DependentObjectReference) :=
  match cl podObj.Namespace with
  | .error e => .error e
  | .ok items =>
    .ok ((getDependentServiceNames podObj.Labels items).map fun service =>
      { APIVersion := "v1", Kind := "Service",
        Namespace := podObj.Namespace, Name := service })

/-- Embeds `getDependenciesFromPodTemplate(cl, podObj)`: emit one reference per
dependent ConfigMap name, then one per dependent Secret name, then append
the Service references; a failed Service read aborts with that error and
no partial result. -/
def getDependenciesFromPodTemplate (cl : Client) (podObj : Pod) :
    Except String (List DependentObjectReference) :=
  let dependentConfigMaps := getConfigMapNames podObj
  let dependentSecrets := getSecretNames podObj
  let cmRefs := dependentConfigMaps.map fun cm =>
    ({ APIVersion := "v1", Kind := "ConfigMap",
       Namespace := podObj.Namespace, Name := cm } : DependentObjectReference)
  let secretRefs := dependentSecrets.map fun secret =>
    ({ APIVersion := "v1", Kind := "Secret",
       Namespace := podObj.Namespace, Name := secret } : DependentObjectReference)
  match getServiceDependencies cl podObj with
  | .error e => .error e
  | .ok dependentServices => .ok (cmRefs ++ secretRefs ++ dependentServices)

/-- A typed workload (Deployment / Job / DaemonSet / StatefulSet view):
the engine only consults its single embedded pod template. -/
structure Workload where
  Spec_Template : Pod
deriving DecidableEq, Repr

/-- Modelled from the spec: the external conversion collaborator. A generic
(`unstructured`) object is modelled by the outcomes of converting it to each
supported typed form; the conversion helpers (`helper.ConvertToDeployment`
and friends, outside the provided sources) project the matching field. -/
structure Unstructured where
  asDeployment : Except String Workload
  asJob : Except String Workload
  asPod : Except String Pod
  asDaemonSet : Except String Workload
  asStatefulSet : Except String Workload

/-- Modelled from the spec: `helper.ConvertToDeployment`. -/
def ConvertToDeployment (object : Unstructured) : Except String Workload :=
  object.asDeployment

/-- Modelled from the spec: `helper.ConvertToJob`. -/
def ConvertToJob (object : Unstructured) : Except String Workload :=
  object.asJob

/-- Modelled from the spec: `helper.ConvertToPod`. -/
def ConvertToPod (object : Unstructured) : Except String Pod :=
  object.asPod

/-- Modelled from the spec: `helper.ConvertToDaemonSet`. -/
def ConvertToDaemonSet (object : Unstructured) : Except String Workload :=
  object.asDaemonSet

/-- Modelled from the spec: `helper.ConvertToStatefulSet`. -/
def ConvertToStatefulSet (object : Unstructured) : Except String Workload :=
  object.asStatefulSet

/-- Modelled from the spec: `GetPodFromTemplate` — from the typed form,
extract the single embedded pod template (the model carries the resolved
pod directly, so extraction succeeds). The fallible signature mirrors the
call site, which propagates its error. -/
def GetPodFromTemplate (template : Pod) : Except String Pod :=
  .ok template

/-- Embeds `getDeploymentDependencies`: convert, wrap a conversion failure in the
`failed to convert Deployment ...` message, resolve the pod template and
delegate to `getDependenciesFromPodTemplate`. -/
def getDeploymentDependencies (cl : Client) (object : Unstructured) :
    Except String (List DependentObjectReference) :=
  match ConvertToDeployment object with
  | .error e => .error ("failed to convert Deployment from unstructured object: " ++ e)
  | .ok deploymentObj =>
    match GetPodFromTemplate deploymentObj.Spec_Template with
    | .error e => .error e
    | .ok podObj => getDependenciesFromPodTemplate cl podObj

/-- Embeds `getJobDependencies`. -/
def getJobDependencies (cl : Client) (object : Unstructured) :
    Except String (List DependentObjectReference) :=
  match ConvertToJob object with
  | .error e => .error ("failed to convert Job from unstructured object: " ++ e)
  | .ok jobObj =>
    match GetPodFromTemplate jobObj.Spec_Template with
    | .error e => .error e
    | .ok podObj => getDependenciesFromPodTemplate cl podObj

/-- Embeds `getPodDependencies`: the bare-pod case has no template indirection. -/
def getPodDependencies (cl : Client) (object : Unstructured) :
    Except String (List DependentObjectReference) :=
  match ConvertToPod object with
  | .error e => .error ("failed to convert Pod from unstructured object: " ++ e)
  | .ok podObj => getDependenciesFromPodTemplate cl podObj

/-- Embeds `getDaemonSetDependencies`. -/
def getDaemonSetDependencies (cl : Client) (object : Unstructured) :
    Except String (List DependentObjectReference) :=
  match ConvertToDaemonSet object with
  | .error e => .error ("failed to convert DaemonSet from unstructured object: " ++ e)
  | .ok daemonSetObj =>
    match GetPodFromTemplate daemonSetObj.Spec_Template with
    | .error e => .error e
    | .ok podObj => getDependenciesFromPodTemplate cl podObj

/-- Embeds `getStatefulSetDependencies`. -/
def getStatefulSetDependencies (cl : Client) (object : Unstructured) :
    Except String (List DependentObjectReference) :=
  match ConvertToStatefulSet object with
  | .error e => .error ("failed to convert StatefulSet from unstructured object: " ++ e)
  | .ok statefulSetObj =>
    match GetPodFromTemplate statefulSetObj.Spec_Template with
    | .error e => .error e
    | .ok podObj => getDependenciesFromPodTemplate cl podObj

/-- Embeds `schema.GroupVersionKind`. -/
structure GroupVersionKind where
  Group : String
  Version : String
  Kind : String
deriving DecidableEq, Repr

/-- Embeds `dependenciesInterpreter`: the extractor signature. -/
abbrev dependenciesInterpreter :=
  Client → Unstructured → Except String (List DependentObjectReference)

/-- Embeds `getAllDefaultDependenciesInterpreter()`: the kind → extractor registry.
The Go map with its five distinct-key inserts is modelled as an association
list; the group/version/kind strings are the values of
`appsv1.SchemeGroupVersion` (`apps/v1`), `batchv1.SchemeGroupVersion`
(`batch/v1`), `corev1.SchemeGroupVersion` (legacy group `""`, `v1`) and the
`util.*Kind` constants. -/
def getAllDefaultDependenciesInterpreter :
    List (GroupVersionKind × dependenciesInterpreter) :=
  [ (⟨"apps", "v1", "Deployment"⟩, getDeploymentDependencies),
    (⟨"batch", "v1", "Job"⟩, getJobDependencies),
    (⟨"", "v1", "Pod"⟩, getPodDependencies),
    (⟨"apps", "v1", "DaemonSet"⟩, getDaemonSetDependencies),
    (⟨"apps", "v1", "StatefulSet"⟩, getStatefulSetDependencies) ]

/-- Look a kind up in the registry (Go map indexing with `, exist`). -/
def regLookup (registry : List (GroupVersionKind × dependenciesInterpreter))
    (gvk : GroupVersionKind) : Option dependenciesInterpreter :=
  match registry with
  | [] => none
  | (k, v) :: rest => if k = gvk then some v else regLookup rest gvk

/-- Outcome of dispatching one workload object. -/
inductive DispatchResult where
  | unsupportedKind
  | extracted (r : Except String (List DependentObjectReference))
deriving Repr

/-- Modelled from the spec: the Dispatcher (its lookup lives outside the
provided sources). It looks the workload's kind up in the registry,
returning the distinct `UnsupportedKind` signal when no extractor is
registered, and the extractor's outcome otherwise. -/
def dispatch (registry : List (GroupVersionKind × dependenciesInterpreter))
    (gvk : GroupVersionKind) (cl : Client) (object : Unstructured) :
    DispatchResult :=
  match regLookup registry gvk with
  | none => .unsupportedKind
  | some interpreter => .extracted (interpreter cl object)

/-- The condition under which one Service contributes its name: not of type
LoadBalancer, a present selector, and every selector pair satisfied by the
pod labels. -/
def matchCond (podLabels : LabelMap) (service : Service) : Prop :=
  service.Spec_Type ≠ ServiceTypeLoadBalancer ∧
    ∃ sel, service.Spec_Selector = some sel ∧ selectorMatches sel podLabels = true

/-- The three groups of references emitted from the three name sets:
ConfigMaps, then Secrets, then Services, all with apiVersion `v1` and the
pod's namespace. -/
def assembleRefs (nsp : String) (cms secs svcs : List String) :
    List DependentObjectReference :=
  cms.map (fun cm =>
    { APIVersion := "v1", Kind := "ConfigMap", Namespace := nsp, Name := cm })
  ++ secs.map (fun secret =>
    { APIVersion := "v1", Kind := "Secret", Namespace := nsp, Name := secret })
  ++ svcs.map (fun service =>
    { APIVersion := "v1", Kind := "Service", Namespace := nsp, Name := service })

/-- One invocation of `getDependenciesFromPodTemplate` together with the
iteration orders of its three `for ... range` loops over Go sets: Go map
iteration order is unspecified, so `cmIter`, `secIter` and `svcIter` stand
for the arbitrary orders in which one invocation happens to enumerate the
accumulated ConfigMap, Secret and Service name sets. -/
def extractWithIterationOrder (cl : Client) (podObj : Pod)
    (cmIter secIter svcIter : List String → List String) :
    Except String (List DependentObjectReference) :=
  match cl podObj.Namespace with
  | .error e => .error e
  | .ok items =>
    .ok (assembleRefs podObj.Namespace
      (cmIter (getConfigMapNames podObj))
      (secIter (getSecretNames podObj))
      (svcIter (getDependentServiceNames podObj.Labels items)))

/-! ### Helper lemmas about the set representation -/

theorem mem_sinsert {s : List String} {x y : String} :
    y ∈ sinsert s x ↔ y ∈ s ∨ y = x := by
  unfold sinsert
  by_cases h : x ∈ s
  · rw [if_pos h]
    constructor
    · exact Or.inl
    · rintro (hy | rfl)
      · exact hy
      · exact h
  · rw [if_neg h]
    simp

theorem nodup_sinsert {s : List String} (x : String) (h : s.Nodup) :
    (sinsert s x).Nodup := by
  unfold sinsert
  by_cases hx : x ∈ s
  · rwa [if_pos hx]
  · rw [if_neg hx]
    simp [List.nodup_append, h, hx]

theorem mem_insertAll {y : String} :
    ∀ (xs : List String) (s : List String), y ∈ insertAll s xs ↔ y ∈ s ∨ y ∈ xs := by
  intro xs
  induction xs with
  | nil => intro s; simp [insertAll]
  | cons x xs ih =>
    intro s
    show y ∈ insertAll (sinsert s x) xs ↔ _
    rw [ih, mem_sinsert]
    constructor
    · rintro ((hy | rfl) | hy)
      · exact Or.inl hy
      · exact Or.inr (List.mem_cons_self _ _)
      · exact Or.inr (List.mem_cons_of_mem _ hy)
    · rintro (hy | hy)
      · exact Or.inl (Or.inl hy)
      · rcases List.mem_cons.mp hy with rfl | hy
        · exact Or.inl (Or.inr rfl)
        · exact Or.inr hy

theorem nodup_insertAll :
    ∀ (xs : List String) (s : List String), s.Nodup → (insertAll s xs).Nodup := by
  intro xs
  induction xs with
  | nil => intro s h; exact h
  | cons x xs ih =>
    intro s h
    exact ih (sinsert s x) (nodup_sinsert x h)

/-! ### Membership in the dependent-Service-name set -/

theorem mem_serviceStep {podLabels : LabelMap} {acc : List String}
    {service : Service} {n : String} :
    n ∈ serviceStep podLabels acc service ↔
      n ∈ acc ∨ (matchCond podLabels service ∧ service.Name = n) := by
  unfold serviceStep matchCond
  by_cases hlb : service.Spec_Type == ServiceTypeLoadBalancer
  · rw [if_pos hlb]
    have : service.Spec_Type = ServiceTypeLoadBalancer := by
      exact of_decide_eq_true hlb
    simp [this]
  · rw [if_neg hlb]
    have hty : service.Spec_Type ≠ ServiceTypeLoadBalancer := by
      intro hc
      exact hlb (by simp [hc])
    cases hsel : service.Spec_Selector with
    | none => simp [hsel]
    | some sel =>
      dsimp only
      by_cases hm : selectorMatches sel podLabels
      · rw [if_pos hm, mem_sinsert]
        constructor
        · rintro (hy | rfl)
          · exact Or.inl hy
          · exact Or.inr ⟨⟨hty, sel, rfl, hm⟩, rfl⟩
        · rintro (hy | ⟨-, hn⟩)
          · exact Or.inl hy
          · exact Or.inr hn.symm
      · rw [if_neg hm]
        simp only [eq_self_iff_true, true_and, hsel, Option.some.injEq]
        constructor
        · exact Or.inl
        · rintro (hy | ⟨⟨-, sel2, hsel2, hm2⟩, -⟩)
          · exact hy
          · exact absurd (hsel2 ▸ hm2) hm

theorem mem_foldl_serviceStep {podLabels : LabelMap} {n : String} :
    ∀ (l : List Service) (acc : List String),
      n ∈ l.foldl (serviceStep podLabels) acc ↔
        n ∈ acc ∨ ∃ s, s ∈ l ∧ matchCond podLabels s ∧ s.Name = n := by
  intro l
  induction l with
  | nil => intro acc; simp
  | cons s l ih =>
    intro acc
    show n ∈ l.foldl _ (serviceStep podLabels acc s) ↔ _
    rw [ih, mem_serviceStep]
    constructor
    · rintro ((hy | hs) | ⟨t, ht, hc⟩)
      · exact Or.inl hy
      · exact Or.inr ⟨s, List.mem_cons_self _ _, hs⟩
      · exact Or.inr ⟨t, List.mem_cons_of_mem _ ht, hc⟩
    · rintro (hy | ⟨t, ht, hc⟩)
      · exact Or.inl (Or.inl hy)
      · rcases List.mem_cons.mp ht with rfl | ht
        · exact Or.inl (Or.inr hc)
        · exact Or.inr ⟨t, ht, hc⟩

theorem mem_getDependentServiceNames {podLabels : LabelMap}
    {serviceList : List Service} {n : String} :
    n ∈ getDependentServiceNames podLabels serviceList ↔
      ∃ s, s ∈ serviceList ∧ matchCond podLabels s ∧ s.Name = n := by
  unfold getDependentServiceNames
  rw [mem_foldl_serviceStep]
  simp

theorem nodup_foldl_serviceStep {podLabels : LabelMap} :
    ∀ (l : List Service) (acc : List String), acc.Nodup →
      (l.foldl (serviceStep podLabels) acc).Nodup := by
  intro l
  induction l with
  | nil => intro acc h; exact h
  | cons s l ih =>
    intro acc h
    refine ih (serviceStep podLabels acc s) ?_
    unfold serviceStep
    split
    · exact h
    · split
      · exact h
      · split
        · exact nodup_sinsert _ h
        · exact h

theorem nodup_getDependentServiceNames {podLabels : LabelMap}
    {serviceList : List Service} :
    (getDependentServiceNames podLabels serviceList).Nodup :=
  nodup_foldl_serviceStep serviceList [] List.nodup_nil

theorem nodup_foldl_insertAll {α : Type} (f : α → List String) :
    ∀ (l : List α) (s : List String), s.Nodup →
      (l.foldl (fun acc a => insertAll acc (f a)) s).Nodup := by
  intro l
  induction l with
  | nil => intro s h; exact h
  | cons a l ih => intro s h; exact ih (insertAll s (f a)) (nodup_insertAll _ s h)

theorem nodup_getConfigMapNames (podObj : Pod) : (getConfigMapNames podObj).Nodup := by
  unfold getConfigMapNames
  exact nodup_foldl_insertAll _ _ _
    (nodup_foldl_insertAll _ _ _ List.nodup_nil)

theorem nodup_getSecretNames (podObj : Pod) : (getSecretNames podObj).Nodup := by
  unfold getSecretNames
  exact nodup_insertAll _ _
    (nodup_foldl_insertAll _ _ _
      (nodup_foldl_insertAll _ _ _ List.nodup_nil))

theorem selectorMatches_iff {sel podLabels : LabelMap} :
    selectorMatches sel podLabels = true ↔
      ∀ kv ∈ sel, podLabels.lookup kv.1 = some kv.2 := by
  simp [selectorMatches]

/-! ### The selector-matcher claims -/

/-- C1: a Service whose selector is nil is excluded from the result of the
service matcher, regardless of the pod's labels — a nil selector matches no
pods. (Since the result carries names, the statement assumes every Service
sharing the excluded Service's name also has a nil selector; in a cluster,
Service names are unique within a namespace.) -/
theorem nil_selector_excluded (podLabels : LabelMap) (serviceList : List Service)
    (svc : Service) (hmem : svc ∈ serviceList)
    (hnil : svc.Spec_Selector = none)
    (huniq : ∀ t ∈ serviceList, t.Name = svc.Name → t.Spec_Selector = none) :
    svc.Name ∉ getDependentServiceNames podLabels serviceList := by
  intro hin
  rcases mem_getDependentServiceNames.mp hin with ⟨t, ht, ⟨-, sel, hsel, -⟩, hname⟩
  rw [huniq t ht hname] at hsel
  exact Option.noConfusion hsel

/-- Witness for C1 at the spec's example: pod labels `{app: web}`, Service
`svc-nil` with nil selector is not in the matcher result. -/
theorem nil_selector_excluded_witness :
    "svc-nil" ∉ getDependentServiceNames [("app", "web")]
      [{ Name := "svc-nil", Spec_Type := "ClusterIP", Spec_Selector := none }] :=
  nil_selector_excluded [("app", "web")] _
    { Name := "svc-nil", Spec_Type := "ClusterIP", Spec_Selector := none }
    (by decide) rfl (by decide)

/-- C2: a Service with a present selector and a type other than
LoadBalancer is included exactly when every (key, value) pair of its
selector appears with an equal value in the pod's labels; extra pod labels
never disqualify a match. (The statement assumes the Service's name
determines it within the list, as Service names are unique within a
namespace.) -/
theorem selector_subset_match (podLabels : LabelMap) (serviceList : List Service)
    (svc : Service) (sel : LabelMap) (hmem : svc ∈ serviceList)
    (hsel : svc.Spec_Selector = some sel)
    (hty : svc.Spec_Type ≠ ServiceTypeLoadBalancer)
    (huniq : ∀ t ∈ serviceList, t.Name = svc.Name → t = svc) :
    svc.Name ∈ getDependentServiceNames podLabels serviceList ↔
      ∀ kv ∈ sel, podLabels.lookup kv.1 = some kv.2 := by
  constructor
  · intro hin
    rcases mem_getDependentServiceNames.mp hin with ⟨t, ht, ⟨-, sel2, hsel2, hm⟩, hname⟩
    rw [huniq t ht hname] at hsel2
    rw [hsel] at hsel2
    cases hsel2
    exact selectorMatches_iff.mp hm
  · intro hall
    exact mem_getDependentServiceNames.mpr
      ⟨svc, hmem, ⟨hty, sel, hsel, selectorMatches_iff.mpr hall⟩, rfl⟩

/-- Witness for C2 at the spec's example: pod labels
`{app: web, tier: frontend}`; `svc-a` with selector `{app: web}` and type
ClusterIP is included. -/
theorem selector_subset_match_witness :
    "svc-a" ∈ getDependentServiceNames [("app", "web"), ("tier", "frontend")]
      [{ Name := "svc-a", Spec_Type := "ClusterIP",
         Spec_Selector := some [("app", "web")] }] :=
  (selector_subset_match [("app", "web"), ("tier", "frontend")] _
    { Name := "svc-a", Spec_Type := "ClusterIP",
      Spec_Selector := some [("app", "web")] }
    [("app", "web")] (by decide) rfl (by decide) (by decide)).mpr (by decide)

/-- C3: a Service of type LoadBalancer is excluded from the matcher's
result unconditionally, even when its selector matches the pod's labels.
(The statement assumes every Service sharing the excluded Service's name is
also of type LoadBalancer; Service names are unique within a namespace.) -/
theorem loadbalancer_excluded (podLabels : LabelMap) (serviceList : List Service)
    (svc : Service) (hmem : svc ∈ serviceList)
    (hlb : svc.Spec_Type = ServiceTypeLoadBalancer)
    (huniq : ∀ t ∈ serviceList, t.Name = svc.Name →
      t.Spec_Type = ServiceTypeLoadBalancer) :
    svc.Name ∉ getDependentServiceNames podLabels serviceList := by
  intro hin
  rcases mem_getDependentServiceNames.mp hin with ⟨t, ht, ⟨hty, -⟩, hname⟩
  exact hty (huniq t ht hname)

/-- Witness for C3 at the spec's example: pod labels `{app: web}`; Service
`svc-lb` of type LoadBalancer with the matching selector `{app: web}` is
not in the matcher result. -/
theorem loadbalancer_excluded_witness :
    "svc-lb" ∉ getDependentServiceNames [("app", "web")]
      [{ Name := "svc-lb", Spec_Type := "LoadBalancer",
         Spec_Selector := some [("app", "web")] }] :=
  loadbalancer_excluded [("app", "web")] _
    { Name := "svc-lb", Spec_Type := "LoadBalancer",
      Spec_Selector := some [("app", "web")] }
    (by decide) rfl (by decide)

/-! ### Shape of a successful extraction -/

theorem getDependenciesFromPodTemplate_ok {cl : Client} {podObj : Pod}
    {refs : List DependentObjectReference}
    (h : getDependenciesFromPodTemplate cl podObj = .ok refs) :
    ∃ items, cl podObj.Namespace = .ok items ∧
      refs =
        (getConfigMapNames podObj).map (fun cm =>
          { APIVersion := "v1", Kind := "ConfigMap",
            Namespace := podObj.Namespace, Name := cm })
        ++ (getSecretNames podObj).map (fun secret =>
          { APIVersion := "v1", Kind := "Secret",
            Namespace := podObj.Namespace, Name := secret })
        ++ (getDependentServiceNames podObj.Labels items).map (fun service =>
          { APIVersion := "v1", Kind := "Service",
            Namespace := podObj.Namespace, Name := service }) := by
  unfold getDependenciesFromPodTemplate getServiceDependencies at h
  cases hcl : cl podObj.Namespace with
  | error e =>
    rw [hcl] at h
    exact Except.noConfusion h
  | ok items =>
    rw [hcl] at h
    refine ⟨items, rfl, ?_⟩
    exact (Except.ok.injEq _ _ ▸ congrArg id h).symm

theorem nodup_map_mkTriple {k nsp : String} {ns : List String} (h : ns.Nodup) :
    (ns.map fun n => (k, n, nsp)).Nodup := by
  refine List.Nodup.map ?_ h
  intro a b hab
  simpa using hab

theorem disjoint_map_mkTriple {k1 k2 : String} (hk : k1 ≠ k2)
    {n1 n2 : String} {l1 l2 : List String} :
    List.Disjoint (l1.map fun n => (k1, n, n1)) (l2.map fun n => (k2, n, n2)) := by
  intro x hx1 hx2
  rcases List.mem_map.mp hx1 with ⟨a, -, rfl⟩
  rcases List.mem_map.mp hx2 with ⟨b, -, hb⟩
  exact hk (congrArg Prod.fst hb).symm

/-- C4: the dependency list of a successful extraction contains at most one
reference per distinct (kind, name, namespace) triple: the triple sequence
is duplicate-free, so a resource mentioned at several reference sites
appears exactly once. -/
theorem dependency_refs_unique (cl : Client) (podObj : Pod)
    (refs : List DependentObjectReference)
    (h : getDependenciesFromPodTemplate cl podObj = .ok refs) :
    (refs.map fun r => (r.Kind, r.Name, r.Namespace)).Nodup := by
  rcases getDependenciesFromPodTemplate_ok h with ⟨items, -, rfl⟩
  simp only [List.map_append, List.map_map, Function.comp]
  rw [List.nodup_append, List.nodup_append]
  refine ⟨⟨nodup_map_mkTriple (nodup_getConfigMapNames podObj),
    nodup_map_mkTriple (nodup_getSecretNames podObj),
    disjoint_map_mkTriple (by decide)⟩,
    nodup_map_mkTriple nodup_getDependentServiceNames, ?_⟩
  rw [List.disjoint_append_left]
  exact ⟨disjoint_map_mkTriple (by decide), disjoint_map_mkTriple (by decide)⟩

/-- A Service-list read that always succeeds with no Services. -/
def clOk : Client := fun _ => .ok []

/-- A Service-list read that always fails. -/
def clErr : Client := fun _ => .error "boom"

/-- A pod referencing ConfigMap `cm1` both through a container environment
source and through a volume. -/
def podCmTwice : Pod :=
  { Namespace := "ns",
    Labels := [],
    containers := [{ envFromConfigMaps := ["cm1"], envFromSecrets := [],
                     envConfigMapKeyRefs := [], envSecretKeyRefs := [] }],
    initContainers := [],
    volumes := [{ configMap := some "cm1", secret := none,
                  projectedConfigMaps := [], projectedSecrets := [] }],
    imagePullSecrets := [] }

/-- Witness for C4: ConfigMap `cm1`, referenced via an environment variable
source and a volume, yields a single reference and a duplicate-free triple
sequence. -/
theorem dependency_refs_unique_witness :
    getDependenciesFromPodTemplate clOk podCmTwice =
      .ok [{ APIVersion := "v1", Kind := "ConfigMap",
             Namespace := "ns", Name := "cm1" }] ∧
    (([{ APIVersion := "v1", Kind := "ConfigMap", Namespace := "ns",
         Name := "cm1" }] : List DependentObjectReference).map
       fun r => (r.Kind, r.Name, r.Namespace)).Nodup :=
  ⟨rfl, dependency_refs_unique clOk podCmTwice _ rfl⟩

/-- An empty pod in namespace `default`. -/
def podEmpty : Pod :=
  { Namespace := "default", Labels := [], containers := [],
    initContainers := [], volumes := [], imagePullSecrets := [] }

/-- C5: when the namespace-scoped Service-list read fails, the extractor
returns that very error and no dependency list — the already collected
ConfigMap and Secret references are discarded. -/
theorem service_list_error_propagated (cl : Client) (podObj : Pod) (e : String)
    (h : cl podObj.Namespace = .error e) :
    getDependenciesFromPodTemplate cl podObj = .error e := by
  unfold getDependenciesFromPodTemplate getServiceDependencies
  rw [h]

/-- Witness for C5: a failing read makes the extraction fail with the
read's own error. -/
theorem service_list_error_propagated_witness :
    clErr podEmpty.Namespace = .error "boom" ∧
    getDependenciesFromPodTemplate clErr podEmpty = .error "boom" :=
  ⟨rfl, service_list_error_propagated clErr podEmpty "boom" rfl⟩

theorem map_kind_mkRef {k nsp : String} :
    ∀ l : List String,
      ((l.map fun n => (⟨"v1", k, nsp, n⟩ : DependentObjectReference)).map
          fun r => r.Kind) =
        List.replicate l.length k := by
  intro l
  induction l with
  | nil => rfl
  | cons a l ih => simp [ih, List.replicate_succ]

/-- C7: every reference of a successful extraction carries apiVersion `v1`
and kind `ConfigMap`, `Secret` or `Service`; the list is grouped with all
ConfigMap references first, then Secrets, then Services; and when no
dependency of any kind is found the result is the empty list (with no
error, as the `.ok` shape already states). -/
theorem result_shape (cl : Client) (podObj : Pod)
    (refs : List DependentObjectReference)
    (h : getDependenciesFromPodTemplate cl podObj = .ok refs) :
    (∀ r ∈ refs, r.APIVersion = "v1" ∧
      (r.Kind = "ConfigMap" ∨ r.Kind = "Secret" ∨ r.Kind = "Service")) ∧
    (∃ a b c, refs.map (fun r => r.Kind) =
      List.replicate a "ConfigMap" ++ List.replicate b "Secret" ++
        List.replicate c "Service") ∧
    (getConfigMapNames podObj = [] → getSecretNames podObj = [] →
      (∀ items, cl podObj.Namespace = .ok items →
        getDependentServiceNames podObj.Labels items = []) →
      refs = []) := by
  rcases getDependenciesFromPodTemplate_ok h with ⟨items, hitems, rfl⟩
  refine ⟨?_, ?_, ?_⟩
  · intro r hr
    rcases List.mem_append.mp hr with hr | hr
    · rcases List.mem_append.mp hr with hr | hr
      · rcases List.mem_map.mp hr with ⟨a, -, rfl⟩
        exact ⟨rfl, Or.inl rfl⟩
      · rcases List.mem_map.mp hr with ⟨a, -, rfl⟩
        exact ⟨rfl, Or.inr (Or.inl rfl)⟩
    · rcases List.mem_map.mp hr with ⟨a, -, rfl⟩
      exact ⟨rfl, Or.inr (Or.inr rfl)⟩
  · refine ⟨(getConfigMapNames podObj).length, (getSecretNames podObj).length,
      (getDependentServiceNames podObj.Labels items).length, ?_⟩
    simp only [List.map_append]
    rw [map_kind_mkRef, map_kind_mkRef, map_kind_mkRef]
  · intro hcm hsec hsvc
    rw [hcm, hsec, hsvc items hitems]
    rfl

/-- Witness for C7: the empty pod with an empty Service list yields the
empty dependency list, each of whose (zero) members trivially satisfies the
shape. -/
theorem result_shape_witness :
    getDependenciesFromPodTemplate clOk podEmpty = .ok [] ∧
    ((∀ r ∈ ([] : List DependentObjectReference), r.APIVersion = "v1" ∧
        (r.Kind = "ConfigMap" ∨ r.Kind = "Secret" ∨ r.Kind = "Service")) ∧
      (∃ a b c, ([] : List DependentObjectReference).map (fun r => r.Kind) =
        List.replicate a "ConfigMap" ++ List.replicate b "Secret" ++
          List.replicate c "Service") ∧
      (getConfigMapNames podEmpty = [] → getSecretNames podEmpty = [] →
        (∀ items, clOk podEmpty.Namespace = .ok items →
          getDependentServiceNames podEmpty.Labels items = []) →
        ([] : List DependentObjectReference) = [])) :=
  ⟨rfl, result_shape clOk podEmpty [] rfl⟩

/-- A generic object on which every conversion fails. -/
def uBad : Unstructured :=
  { asDeployment := .error "bad", asJob := .error "bad", asPod := .error "bad",
    asDaemonSet := .error "bad", asStatefulSet := .error "bad" }

/-- C6: for every supported workload kind, a failed conversion makes the
extractor return the kind's `failed to convert ...` error and no dependency
list, and the outcome is the same under any two Service-list readers — the
Service-list read cannot influence it. The extractors are functions of one
object, so the failure affects only that object. -/
theorem conversion_failure_isolated (cl cl2 : Client) (object : Unstructured)
    (e : String) :
    (object.asDeployment = .error e →
      getDeploymentDependencies cl object =
        .error ("failed to convert Deployment from unstructured object: " ++ e) ∧
      getDeploymentDependencies cl object = getDeploymentDependencies cl2 object) ∧
    (object.asJob = .error e →
      getJobDependencies cl object =
        .error ("failed to convert Job from unstructured object: " ++ e) ∧
      getJobDependencies cl object = getJobDependencies cl2 object) ∧
    (object.asPod = .error e →
      getPodDependencies cl object =
        .error ("failed to convert Pod from unstructured object: " ++ e) ∧
      getPodDependencies cl object = getPodDependencies cl2 object) ∧
    (object.asDaemonSet = .error e →
      getDaemonSetDependencies cl object =
        .error ("failed to convert DaemonSet from unstructured object: " ++ e) ∧
      getDaemonSetDependencies cl object = getDaemonSetDependencies cl2 object) ∧
    (object.asStatefulSet = .error e →
      getStatefulSetDependencies cl object =
        .error ("failed to convert StatefulSet from unstructured object: " ++ e) ∧
      getStatefulSetDependencies cl object = getStatefulSetDependencies cl2 object) := by
  refine ⟨?_, ?_, ?_, ?_, ?_⟩ <;> intro h
  · constructor <;>
      simp [getDeploymentDependencies, ConvertToDeployment, h]
  · constructor <;>
      simp [getJobDependencies, ConvertToJob, h]
  · constructor <;>
      simp [getPodDependencies, ConvertToPod, h]
  · constructor <;>
      simp [getDaemonSetDependencies, ConvertToDaemonSet, h]
  · constructor <;>
      simp [getStatefulSetDependencies, ConvertToStatefulSet, h]

/-- Witness for C6: a Deployment object whose conversion fails with `bad`
yields the wrapped conversion error, identically under a succeeding and a
failing Service-list reader. -/
theorem conversion_failure_isolated_witness :
    getDeploymentDependencies clOk uBad =
      .error ("failed to convert Deployment from unstructured object: " ++ "bad") ∧
    getDeploymentDependencies clOk uBad = getDeploymentDependencies clErr uBad :=
  (conversion_failure_isolated clOk clErr uBad "bad").1 rfl

theorem regLookup_eq_none {gvk : GroupVersionKind} :
    ∀ registry : List (GroupVersionKind × dependenciesInterpreter),
      gvk ∉ registry.map Prod.fst → regLookup registry gvk = none := by
  intro registry
  induction registry with
  | nil => intro h; rfl
  | cons p rest ih =>
    intro h
    rcases p with ⟨k, v⟩
    unfold regLookup
    rw [if_neg, ih]
    · intro hc
      exact h (by simp [hc])
    · intro hc
      exact h (by simp [hc])

/-- C8: dispatching a workload kind absent from the registry yields the
`UnsupportedKind` signal — a value distinct from every extraction outcome,
not a crash and not a silent empty result. -/
theorem unsupported_kind_signaled (gvk : GroupVersionKind)
    (h : gvk ∉ getAllDefaultDependenciesInterpreter.map Prod.fst)
    (cl : Client) (object : Unstructured) :
    dispatch getAllDefaultDependenciesInterpreter gvk cl object =
      .unsupportedKind := by
  unfold dispatch
  rw [regLookup_eq_none getAllDefaultDependenciesInterpreter h]

/-- Witness for C8: `apps/v1 ReplicaSet` is not registered and dispatching
it is signalled as unsupported. -/
theorem unsupported_kind_signaled_witness :
    (⟨"apps", "v1", "ReplicaSet"⟩ : GroupVersionKind) ∉
      getAllDefaultDependenciesInterpreter.map Prod.fst ∧
    dispatch getAllDefaultDependenciesInterpreter ⟨"apps", "v1", "ReplicaSet"⟩
      clOk uBad = .unsupportedKind :=
  ⟨by decide, unsupported_kind_signaled ⟨"apps", "v1", "ReplicaSet"⟩ (by decide)
    clOk uBad⟩

/-- C10: the registry's key sequence is exactly apps/v1 Deployment,
batch/v1 Job, core (legacy group)/v1 Pod, apps/v1 DaemonSet and apps/v1
StatefulSet, and each key is mapped to the extractor for that kind. -/
theorem registry_contents :
    getAllDefaultDependenciesInterpreter.map Prod.fst =
      [⟨"apps", "v1", "Deployment"⟩, ⟨"batch", "v1", "Job"⟩, ⟨"", "v1", "Pod"⟩,
       ⟨"apps", "v1", "DaemonSet"⟩, ⟨"apps", "v1", "StatefulSet"⟩] ∧
    regLookup getAllDefaultDependenciesInterpreter ⟨"apps", "v1", "Deployment"⟩ =
      some getDeploymentDependencies ∧
    regLookup getAllDefaultDependenciesInterpreter ⟨"batch", "v1", "Job"⟩ =
      some getJobDependencies ∧
    regLookup getAllDefaultDependenciesInterpreter ⟨"", "v1", "Pod"⟩ =
      some getPodDependencies ∧
    regLookup getAllDefaultDependenciesInterpreter ⟨"apps", "v1", "DaemonSet"⟩ =
      some getDaemonSetDependencies ∧
    regLookup getAllDefaultDependenciesInterpreter ⟨"apps", "v1", "StatefulSet"⟩ =
      some getStatefulSetDependencies := by
  refine ⟨rfl, ?_, ?_, ?_, ?_, ?_⟩ <;>
    simp [regLookup, getAllDefaultDependenciesInterpreter]

/-- The source extraction is the iteration-order model at the identity
orders. -/
theorem getDependenciesFromPodTemplate_eq_extract (cl : Client) (podObj : Pod) :
    getDependenciesFromPodTemplate cl podObj =
      extractWithIterationOrder cl podObj id id id := by
  unfold getDependenciesFromPodTemplate getServiceDependencies
    extractWithIterationOrder assembleRefs
  cases cl podObj.Namespace with
  | error e => rfl
  | ok items => rfl

/-- C9: two invocations on the same workload object and the same cluster
state — differing only in the unspecified orders in which they enumerate
the three accumulated name sets — return dependency lists that are equal as
sets of (kind, name) pairs. -/
theorem deterministic_as_set (cl : Client) (podObj : Pod)
    (cmIter1 secIter1 svcIter1 cmIter2 secIter2 svcIter2 :
      List String → List String)
    (hcm1 : ∀ l, (cmIter1 l).Perm l) (hsec1 : ∀ l, (secIter1 l).Perm l)
    (hsvc1 : ∀ l, (svcIter1 l).Perm l)
    (hcm2 : ∀ l, (cmIter2 l).Perm l) (hsec2 : ∀ l, (secIter2 l).Perm l)
    (hsvc2 : ∀ l, (svcIter2 l).Perm l) :
    ∀ refs1 refs2,
      extractWithIterationOrder cl podObj cmIter1 secIter1 svcIter1 = .ok refs1 →
      extractWithIterationOrder cl podObj cmIter2 secIter2 svcIter2 = .ok refs2 →
      ∀ p : String × String,
        p ∈ refs1.map (fun r => (r.Kind, r.Name)) ↔
          p ∈ refs2.map (fun r => (r.Kind, r.Name)) := by
  intro refs1 refs2 h1 h2 p
  unfold extractWithIterationOrder at h1 h2
  cases hcl : cl podObj.Namespace with
  | error e =>
    rw [hcl] at h1
    exact Except.noConfusion h1
  | ok items =>
    rw [hcl] at h1
    rw [hcl] at h2
    cases h1
    cases h2
    have hperm : (assembleRefs podObj.Namespace
        (cmIter1 (getConfigMapNames podObj))
        (secIter1 (getSecretNames podObj))
        (svcIter1 (getDependentServiceNames podObj.Labels items))).Perm
      (assembleRefs podObj.Namespace
        (cmIter2 (getConfigMapNames podObj))
        (secIter2 (getSecretNames podObj))
        (svcIter2 (getDependentServiceNames podObj.Labels items))) := by
      unfold assembleRefs
      exact List.Perm.append
        (List.Perm.append
          (List.Perm.map _ ((hcm1 _).trans (hcm2 _).symm))
          (List.Perm.map _ ((hsec1 _).trans (hsec2 _).symm)))
        (List.Perm.map _ ((hsvc1 _).trans (hsvc2 _).symm))
    exact (hperm.map (fun r => (r.Kind, r.Name))).mem_iff

/-- A pod labelled `app: web` referencing ConfigMaps `cm1` and `cm2`. -/
def podTwoCms : Pod :=
  { Namespace := "ns",
    Labels := [("app", "web")],
    containers := [{ envFromConfigMaps := ["cm1", "cm2"], envFromSecrets := [],
                     envConfigMapKeyRefs := [], envSecretKeyRefs := [] }],
    initContainers := [],
    volumes := [],
    imagePullSecrets := [] }

/-- Witness for C9: enumerating the name sets in order versus in reverse
yields lists with the same (kind, name) members, checked at the pair
`(ConfigMap, cm2)`. -/
theorem deterministic_as_set_witness :
    ("ConfigMap", "cm2") ∈
      (assembleRefs "ns" ["cm1", "cm2"] [] []).map (fun r => (r.Kind, r.Name)) ↔
    ("ConfigMap", "cm2") ∈
      (assembleRefs "ns" ["cm2", "cm1"] [] []).map (fun r => (r.Kind, r.Name)) :=
  deterministic_as_set clOk podTwoCms
    (fun l => l) (fun l => l) (fun l => l)
    List.reverse (fun l => l) (fun l => l)
    (fun l => List.Perm.refl l) (fun l => List.Perm.refl l)
    (fun l => List.Perm.refl l)
    (fun l => l.reverse_perm) (fun l => List.Perm.refl l)
    (fun l => List.Perm.refl l)
    (assembleRefs "ns" ["cm1", "cm2"] [] [])
    (assembleRefs "ns" ["cm2", "cm1"] [] [])
    rfl rfl ("ConfigMap", "cm2")

end Karmada
